import Mathlib

/-!
Verification development for the riweather record decoder and time-series
rollup engine (`src/riweather/parser.py` and `src/riweather/stations.py`).

The Python source is shallowly embedded here:

* fixed-width text fields become `String` / `List Char` operations that copy
  Python slicing semantics (`line[a:b]`, `line[i]`);
* Python floats become `ℚ` (all wire-format numbers are decimal with a
  power-of-ten scaling factor, so rational arithmetic is exact);
* fallible code (`IndexError`, `ValueError`, pydantic validation errors,
  pandas configuration errors) becomes `Except`;
* pandas timestamps become rational numbers of seconds since the midnight
  starting the first day of data (pandas resampling anchors its bins at
  `origin="start_day"`), and time series become association lists from
  timestamps to optional (`NaN`-able) values.
-/

/-- Python `str.isspace` on the characters `str.strip` removes by default. -/
def pyIsSpace (c : Char) : Bool :=
  c = ' ' || c = '\t' || c = '\n' || c = '\r' || c = '\x0b' || c = '\x0c'

/-- Python `str.strip()`: remove leading and trailing whitespace. -/
def pyStrip (s : String) : String :=
  ⟨(s.data.dropWhile pyIsSpace).reverse.dropWhile pyIsSpace |>.reverse⟩

/-- One or more characters, all `9` (the `9+` part of the sentinel regex). -/
def allNine : List Char → Bool
  | [] => false
  | cs => cs.all (fun c => c = '9')

/-- The regex `^[-+]?9+$` from `missing_if_all_nines` (`parser.py:15`),
applied to a whole (already stripped) token. -/
def matchesAllNines : List Char → Bool
  | [] => false
  | c :: cs => if c = '-' || c = '+' then allNine cs else allNine (c :: cs)

/-- Read a digit string as a natural number (characters assumed to be digits). -/
def digitsToNat (cs : List Char) : ℕ :=
  cs.foldl (fun a c => a * 10 + (c.toNat - 48)) 0

/-- Python `int(s)` on a string: optional sign followed by one or more digits
(surrounding whitespace allowed). `none` models `ValueError`. -/
def pyParseInt (s : String) : Option ℤ :=
  let cs := (pyStrip s).data
  let (sgn, rest) : ℤ × List Char :=
    match cs with
    | '+' :: r => (1, r)
    | '-' :: r => (-1, r)
    | r => (1, r)
  if rest ≠ [] ∧ rest.all Char.isDigit then some (sgn * digitsToNat rest) else none

/-- Python `float(s)` restricted to the decimal forms that occur in the ISD
wire format: optional sign, digits, optionally a point and more digits.
`none` models `ValueError`. -/
def pyParseFloat (s : String) : Option ℚ :=
  let cs := (pyStrip s).data
  let (sgn, rest) : ℚ × List Char :=
    match cs with
    | '+' :: r => (1, r)
    | '-' :: r => (-1, r)
    | r => (1, r)
  let intPart := rest.takeWhile Char.isDigit
  let rest2 := rest.dropWhile Char.isDigit
  match rest2 with
  | [] =>
    if intPart ≠ [] then some (sgn * digitsToNat intPart) else none
  | '.' :: frac =>
    if (intPart ≠ [] ∨ frac ≠ []) ∧ frac.all Char.isDigit then
      some (sgn * ((digitsToNat intPart : ℚ) + digitsToNat frac / 10 ^ frac.length))
    else none
  | _ => none

/-- Errors surfaced by the record parser: Python `IndexError` on a too-short
line, `ValueError` from numeric parsing / `strptime`, and pydantic
validation failures. The spec groups all of these as `FormatError`. -/
inductive FormatError where
  | indexError : FormatError
  | valueError : FormatError
  | validationError : FormatError
deriving DecidableEq, Repr

/-- The union return type of `missing_if_all_nines`
(`str | int | float | None`, with `None` handled by `Option`). -/
inductive FieldValue where
  | str : String → FieldValue
  | num : ℚ → FieldValue
deriving DecidableEq, Repr

/-- `missing_if_all_nines` (`parser.py:10-21`): strip the raw token, return
absent when it matches `^[-+]?9+$`, otherwise divide by the scaling factor
(when it is not 1) or return the stripped text verbatim.  A numeric parse
failure on a non-sentinel token is a fatal format error. -/
def missing_if_all_nines (v : String) (scaling_factor : ℚ) : Except FormatError (Option FieldValue) :=
  let v := pyStrip v
  if matchesAllNines v.data then
    .ok none
  else if scaling_factor ≠ 1 then
    match pyParseFloat v with
    | some q => .ok (some (.num (q / scaling_factor)))
    | none => .error .valueError
  else
    .ok (some (.str v))

/-- A pydantic optional-string field with `BeforeValidator(missing_if_all_nines)`
and a `max_length` constraint. -/
def decodeOptStr (maxLen : ℕ) (v : String) : Except FormatError (Option String) := do
  match ← missing_if_all_nines v 1 with
  | none => pure none
  | some (.str s) => if s.length ≤ maxLen then pure (some s) else .error .validationError
  | some (.num _) => .error .validationError

/-- A pydantic optional-int field with `BeforeValidator(missing_if_all_nines)`
(scaling factor 1, so the validator hands pydantic a string to coerce). -/
def decodeOptInt (v : String) : Except FormatError (Option ℤ) := do
  match ← missing_if_all_nines v 1 with
  | none => pure none
  | some (.str s) =>
    match pyParseInt s with
    | some n => pure (some n)
    | none => .error .validationError
  | some (.num _) => .error .validationError

/-- A pydantic optional-float field with
`BeforeValidator(lambda x: missing_if_all_nines(x, scaling_factor=sf))`. -/
def decodeScaled (sf : ℚ) (v : String) : Except FormatError (Option ℚ) := do
  match ← missing_if_all_nines v sf with
  | none => pure none
  | some (.num q) => pure (some q)
  | some (.str s) =>
    match pyParseFloat s with
    | some q => pure (some q)
    | none => .error .validationError

/-- A required pydantic `int` field coerced from the raw string
(`total_variable_characters`). -/
def decodeInt (v : String) : Except FormatError ℤ :=
  match pyParseInt v with
  | some n => .ok n
  | none => .error .validationError

/-- A required pydantic string field with only a `max_length` constraint. -/
def checkMaxLen (maxLen : ℕ) (v : String) : Except FormatError String :=
  if v.length ≤ maxLen then .ok v else .error .validationError

/-- `\w` of the `usaf_id` pattern `^\w*$` (ASCII part). -/
def isWordChar (c : Char) : Bool :=
  c.isAlphanum || c = '_'

/-- `usaf_id`: exactly 6 characters matching `^\w*$`. -/
def checkUsaf (v : String) : Except FormatError String :=
  if v.length = 6 ∧ v.data.all isWordChar then .ok v else .error .validationError

/-- `wban_id`: exactly 5 characters matching `^\d*$`. -/
def checkWban (v : String) : Except FormatError String :=
  if v.length = 5 ∧ v.data.all Char.isDigit then .ok v else .error .validationError

/-- A proleptic-Gregorian leap year (Python `calendar`/`datetime` rule). -/
def isLeapYear (y : ℕ) : Bool :=
  (y % 4 = 0 && y % 100 ≠ 0) || y % 400 = 0

/-- Number of days in a month, as enforced by `datetime.datetime`. -/
def daysInMonth (y m : ℕ) : ℕ :=
  if m = 2 then (if isLeapYear y then 29 else 28)
  else if m = 4 ∨ m = 6 ∨ m = 9 ∨ m = 11 then 30
  else 31

/-- A timezone-aware UTC datetime (the only timezone the parser produces). -/
structure DateTimeUTC where
  year : ℕ
  month : ℕ
  day : ℕ
  hour : ℕ
  minute : ℕ
deriving DecidableEq, Repr

/-- `ControlData.parse_datetime` (`parser.py:70-93`):
`datetime.strptime(value, "%Y%m%d%H%M").replace(tzinfo=timezone.utc)`.
`strptime` requires exactly four year digits and two digits for each of
month/day/hour/minute here (twelve digits in all), with the field ranges
checked by `strptime`'s regex and the `datetime` constructor; the result is
stamped UTC with no conversion. -/
def parse_datetime (s : String) : Except FormatError DateTimeUTC :=
  let cs := s.data
  if cs.length = 12 ∧ cs.all Char.isDigit then
    let y := digitsToNat (cs.take 4)
    let mo := digitsToNat ((cs.drop 4).take 2)
    let d := digitsToNat ((cs.drop 6).take 2)
    let h := digitsToNat ((cs.drop 8).take 2)
    let mi := digitsToNat ((cs.drop 10).take 2)
    if 1 ≤ y ∧ 1 ≤ mo ∧ mo ≤ 12 ∧ 1 ≤ d ∧ d ≤ daysInMonth y mo ∧ h ≤ 23 ∧ mi ≤ 59 then
      .ok ⟨y, mo, d, h, mi⟩
    else
      .error .valueError
  else
    .error .valueError

/-- Spec-side predicate ("a valid `YYYYMMDDHHMM` calendar date-time"),
written from the specification's words for claim C7: twelve digits encoding
a real calendar date (day within the month, February 29 only in leap years)
and a real time of day. -/
def isValidYMDHM (s : String) : Bool :=
  let cs := s.data
  cs.length = 12 && cs.all Char.isDigit &&
    (let y := digitsToNat (cs.take 4)
     let mo := digitsToNat ((cs.drop 4).take 2)
     let d := digitsToNat ((cs.drop 6).take 2)
     let h := digitsToNat ((cs.drop 8).take 2)
     let mi := digitsToNat ((cs.drop 10).take 2)
     1 ≤ y && 1 ≤ mo && mo ≤ 12 && 1 ≤ d && d ≤ daysInMonth y mo && h ≤ 23 && mi ≤ 59)

/-- `ControlData` (`parser.py:24-93`). -/
structure ControlData where
  total_variable_characters : ℤ
  usaf_id : String
  wban_id : String
  dt : DateTimeUTC
  data_source_flag : Option String
  latitude : Option ℚ
  longitude : Option ℚ
  report_type_code : Option String
  elevation : Option ℤ
  call_letter_id : Option String
  qc_process_name : String
deriving DecidableEq, Repr

/-- Pydantic validation of `ControlData` from the raw sliced tokens. -/
def ControlData.validate (tvc usaf wban dt dsf lat lon rtc elev cli qc : String) :
    Except FormatError ControlData := do
  let tvcv ← decodeInt tvc
  let usafv ← checkUsaf usaf
  let wbanv ← checkWban wban
  let dtv ← parse_datetime dt
  let dsfv ← decodeOptStr 1 dsf
  let latv ← decodeScaled 1000 lat
  let lonv ← decodeScaled 1000 lon
  let rtcv ← decodeOptStr 5 rtc
  let elevv ← decodeOptInt elev
  let cliv ← decodeOptStr 5 cli
  let qcv ← checkMaxLen 4 qc
  pure ⟨tvcv, usafv, wbanv, dtv, dsfv, latv, lonv, rtcv, elevv, cliv, qcv⟩

/-- `WindObservation` (`parser.py:96-123`). -/
structure WindObservation where
  direction_angle : Option ℤ
  direction_quality_code : String
  type_code : Option String
  speed_rate : Option ℚ
  speed_quality_code : String
deriving DecidableEq, Repr

def WindObservation.validate (da dq tc sr sq : String) : Except FormatError WindObservation := do
  let dav ← decodeOptInt da
  let dqv ← checkMaxLen 1 dq
  let tcv ← decodeOptStr 1 tc
  let srv ← decodeScaled 10 sr
  let sqv ← checkMaxLen 1 sq
  pure ⟨dav, dqv, tcv, srv, sqv⟩

/-- `SkyConditionObservation` (`parser.py:126-161`). -/
structure SkyConditionObservation where
  ceiling_height : Option ℤ
  ceiling_quality_code : String
  ceiling_determination_code : Option String
  cavok_code : Option String
deriving DecidableEq, Repr

def SkyConditionObservation.validate (ch cq cd cv : String) :
    Except FormatError SkyConditionObservation := do
  let chv ← decodeOptInt ch
  let cqv ← checkMaxLen 1 cq
  let cdv ← decodeOptStr 1 cd
  let cvv ← decodeOptStr 1 cv
  pure ⟨chv, cqv, cdv, cvv⟩

/-- `VisibilityObservation` (`parser.py:164-193`). -/
structure VisibilityObservation where
  distance : Option ℤ
  distance_quality_code : String
  variability_code : Option String
  variability_quality_code : String
deriving DecidableEq, Repr

def VisibilityObservation.validate (di dq vc vq : String) :
    Except FormatError VisibilityObservation := do
  let div ← decodeOptInt di
  let dqv ← checkMaxLen 1 dq
  let vcv ← decodeOptStr 1 vc
  let vqv ← checkMaxLen 1 vq
  pure ⟨div, dqv, vcv, vqv⟩

/-- `AirTemperatureObservation` (`parser.py:196-212`), used for both the air
temperature and the dew point. -/
structure AirTemperatureObservation where
  temperature_c : Option ℚ
  quality_code : String
deriving DecidableEq, Repr

/-- The computed field `temperature_f` (`parser.py:209-212`):
`self.temperature_c * 1.8 + 32 if self.temperature_c is not None else None`. -/
def AirTemperatureObservation.temperature_f (t : AirTemperatureObservation) : Option ℚ :=
  match t.temperature_c with
  | some c => some (c * 1.8 + 32)
  | none => none

def AirTemperatureObservation.validate (tc qc : String) :
    Except FormatError AirTemperatureObservation := do
  let tcv ← decodeScaled 10 tc
  let qcv ← checkMaxLen 1 qc
  pure ⟨tcv, qcv⟩

/-- `AtmosphericPressureObservation` (`parser.py:215-226`). -/
structure AtmosphericPressureObservation where
  pressure : Option ℚ
  quality_code : String
deriving DecidableEq, Repr

def AtmosphericPressureObservation.validate (pr qc : String) :
    Except FormatError AtmosphericPressureObservation := do
  let prv ← decodeScaled 10 pr
  let qcv ← checkMaxLen 1 qc
  pure ⟨prv, qcv⟩

/-- `MandatoryData` (`parser.py:229-237`). -/
structure MandatoryData where
  wind : WindObservation
  ceiling : SkyConditionObservation
  visibility : VisibilityObservation
  air_temperature : AirTemperatureObservation
  dew_point : AirTemperatureObservation
  sea_level_pressure : AtmosphericPressureObservation
deriving DecidableEq, Repr

/-- `ISDRecord` (`parser.py:248-253`); `additional` is reserved and always
empty in this core, so its element type is irrelevant. -/
structure ISDRecord where
  control : ControlData
  mandatory : MandatoryData
  additional : List Unit
deriving DecidableEq, Repr

/-- Python slicing `line[a:b]` (never raises for `0 ≤ a ≤ b`). -/
def pySlice (cs : List Char) (a b : ℕ) : List Char :=
  (cs.drop a).take (b - a)

/-- `line[a:b]` as a `String`. -/
def sliceStr (line : String) (a b : ℕ) : String :=
  ⟨pySlice line.data a b⟩

/-- Python single-character indexing `line[i]`, which raises `IndexError`
past the end of the string. -/
def pyCharAt (cs : List Char) (i : ℕ) : Except FormatError String :=
  match cs.get? i with
  | some c => .ok ⟨[c]⟩
  | none => .error .indexError

/-- `parse_line` (`parser.py:256-319`), with slices taken and the six
mandatory observation groups validated in the source's evaluation order,
followed by the control-data validation. -/
def parse_line (line : String) : Except FormatError ISDRecord := do
  let cs := line.data
  let dsf ← pyCharAt cs 27
  let wdq ← pyCharAt cs 63
  let wtc ← pyCharAt cs 64
  let wsq ← pyCharAt cs 69
  let wind ← WindObservation.validate ⟨pySlice cs 60 63⟩ wdq wtc ⟨pySlice cs 65 69⟩ wsq
  let ccq ← pyCharAt cs 75
  let ccd ← pyCharAt cs 76
  let ccv ← pyCharAt cs 77
  let ceiling ← SkyConditionObservation.validate ⟨pySlice cs 70 75⟩ ccq ccd ccv
  let vdq ← pyCharAt cs 84
  let vvc ← pyCharAt cs 85
  let vvq ← pyCharAt cs 86
  let visibility ← VisibilityObservation.validate ⟨pySlice cs 78 84⟩ vdq vvc vvq
  let atq ← pyCharAt cs 92
  let air_temperature ← AirTemperatureObservation.validate ⟨pySlice cs 87 92⟩ atq
  let dpq ← pyCharAt cs 98
  let dew_point ← AirTemperatureObservation.validate ⟨pySlice cs 93 98⟩ dpq
  let spq ← pyCharAt cs 104
  let sea_level_pressure ← AtmosphericPressureObservation.validate ⟨pySlice cs 99 104⟩ spq
  let control ← ControlData.validate ⟨pySlice cs 0 4⟩ ⟨pySlice cs 4 10⟩ ⟨pySlice cs 10 15⟩
    ⟨pySlice cs 15 27⟩ dsf ⟨pySlice cs 28 34⟩ ⟨pySlice cs 34 41⟩ ⟨pySlice cs 41 46⟩
    ⟨pySlice cs 46 51⟩ ⟨pySlice cs 51 56⟩ ⟨pySlice cs 56 60⟩
  pure ⟨control, ⟨wind, ceiling, visibility, air_temperature, dew_point, sea_level_pressure⟩, []⟩

/-! ## Time-series resampling engine (`stations.py:51-316`)

A series is a list of `(timestamp, value)` rows; timestamps are rational
seconds and `none` models a pandas `NaN` cell.  The rows of every series the
engine touches are in increasing timestamp order (pandas resampling requires
a monotonic index; see claim C8). -/

/-- A pandas `Series` with a datetime index: `(seconds, value-or-NaN)` rows. -/
abbrev TimeSeries : Type := List (ℚ × Option ℚ)

/-- Earliest timestamp (`index.min()`); 0 on an empty series (unused there). -/
def tmin : TimeSeries → ℚ
  | [] => 0
  | p :: rest => rest.foldr (fun q a => min q.1 a) p.1

/-- Latest timestamp (`index.max()`); 0 on an empty series (unused there). -/
def tmax : TimeSeries → ℚ
  | [] => 0
  | p :: rest => rest.foldr (fun q a => max q.1 a) p.1

/-- Arithmetic mean of a list of present values; `none` (NaN) when empty,
exactly as pandas `mean()` over a bucket with NaN values excluded. -/
def meanOpt (l : List ℚ) : Option ℚ :=
  if l = [] then none else some (l.sum / l.length)

/-- Bucket index of timestamp `t` for `resample(S, closed="left")`:
the bin `[k*S, (k+1)*S)` holds `t` iff `⌊t/S⌋ = k`. -/
def floorIdx (t S : ℚ) : ℤ := ⌊t / S⌋

/-- Bucket index of timestamp `t` for `resample(S, closed="right")`:
the bin `((k-1)*S, k*S]` holds `t` iff `⌈t/S⌉ = k`. -/
def ceilIdx (t S : ℚ) : ℤ := ⌈t / S⌉

/-- The present (non-NaN) values of the rows in bucket `k` of `d`,
for a bucket-index function `idx`. -/
def bucketVals (idx : ℚ → ℚ → ℤ) (d : TimeSeries) (S : ℚ) (k : ℤ) : List ℚ :=
  (d.filter (fun p => idx p.1 S = k)).filterMap (fun p => p.2)

/-- `data.resample(S, label="left", closed="left").mean()`: one output row
per bucket from the first occupied bucket to the last, labelled with the
bucket start, holding the mean of the present values that fall in
`[label, label+S)` (NaN for an empty bucket). -/
def resampleLeftMean (d : TimeSeries) (S : ℚ) : TimeSeries :=
  if d = [] ∨ S ≤ 0 then [] else
    let k0 := floorIdx (tmin d) S
    let k1 := floorIdx (tmax d) S
    (List.range ((k1 - k0).toNat + 1)).map fun n =>
      let k := k0 + n
      ((k : ℚ) * S, meanOpt (bucketVals floorIdx d S k))

/-- `data.resample(S, label="right", closed="right").mean()`: one output row
per bucket, labelled with the bucket end, holding the mean of the present
values that fall in `(label-S, label]`. -/
def resampleRightMean (d : TimeSeries) (S : ℚ) : TimeSeries :=
  if d = [] ∨ S ≤ 0 then [] else
    let k0 := ceilIdx (tmin d) S
    let k1 := ceilIdx (tmax d) S
    (List.range ((k1 - k0).toNat + 1)).map fun n =>
      let k := k0 + n
      ((k : ℚ) * S, meanOpt (bucketVals ceilIdx d S k))

/-- The `(position, value)` pairs of the non-NaN rows of a series, by list
position (the valid knots `interpolate` draws lines between). -/
def validIdx (l : TimeSeries) : List (ℕ × ℚ) :=
  l.enum.filterMap (fun p => p.2.2.map (fun v => (p.1, v)))

/-- The nearest valid knot at or before position `i`: the knot of greatest
position among those with position `≤ i`. -/
def bestLe (i : ℕ) : List (ℕ × ℚ) → Option (ℕ × ℚ)
  | [] => none
  | p :: rest =>
    let r := bestLe i rest
    if p.1 ≤ i then
      match r with
      | none => some p
      | some q => if q.1 < p.1 then some p else some q
    else r

/-- The nearest valid knot at or after position `i`: the knot of least
position among those with position `≥ i`. -/
def bestGe (i : ℕ) : List (ℕ × ℚ) → Option (ℕ × ℚ)
  | [] => none
  | p :: rest =>
    let r := bestGe i rest
    if i ≤ p.1 then
      match r with
      | none => some p
      | some q => if p.1 < q.1 then some p else some q
    else r

/-- `np.interp` at position `i` against the valid knots: linear between the
surrounding knots, constant beyond the first/last knot. -/
def interpVal (i : ℕ) (knots : List (ℕ × ℚ)) : Option ℚ :=
  match bestLe i knots, bestGe i knots with
  | some jp, some kp =>
    if kp.1 = jp.1 then some jp.2
    else some (jp.2 + (kp.2 - jp.2) * ((i - jp.1 : ℕ) : ℚ) / ((kp.1 - jp.1 : ℕ) : ℚ))
  | some jp, none => some jp.2
  | none, some kp => some kp.2
  | none, none => none

/-- The `limit=60, limit_direction="both"` mask of pandas `interpolate`: a
NaN at position `i` may be filled iff it is within 60 positions of a valid
knot in at least one direction. -/
def fillAllowed (i : ℕ) (knots : List (ℕ × ℚ)) : Bool :=
  (match bestLe i knots with
   | some jp => decide (i - jp.1 ≤ 60)
   | none => false) ||
  (match bestGe i knots with
   | some kp => decide (kp.1 - i ≤ 60)
   | none => false)

/-- `.interpolate(method="linear", limit=60, limit_direction="both")` on a
minute-resolution series: every present value is kept; a NaN is replaced by
the linear interpolation between the nearest valid knots when it lies within
60 consecutive NaN positions of a valid knot in either direction, and is
preserved as NaN otherwise. -/
def interpolateSeries (l : TimeSeries) : TimeSeries :=
  let knots := validIdx l
  l.enum.map fun p =>
    (p.2.1,
      match p.2.2 with
      | some v => some v
      | none => if fillAllowed p.1 knots then interpVal p.1 knots else none)

/-- `upsample` (`stations.py:51-104`) at its minute-level default:
`data.resample("min").mean().interpolate(method="linear", limit=60,
limit_direction="both")`. -/
def upsample (d : TimeSeries) : TimeSeries :=
  interpolateSeries (resampleLeftMean d 60)

/-- `rollup_starting` (`stations.py:107-174`) for a fixed period of `S`
seconds: optional minute-level upsampling, then
`resample(period, label="left", closed="left").mean()`. -/
def rollup_starting (d : TimeSeries) (S : ℚ) (upsample_first : Bool) : TimeSeries :=
  resampleLeftMean (if upsample_first then upsample d else d) S

/-- `rollup_ending` (`stations.py:177-244`) for a fixed period of `S`
seconds: optional minute-level upsampling, then
`resample(period, label="right", closed="right").mean()`. -/
def rollup_ending (d : TimeSeries) (S : ℚ) (upsample_first : Bool) : TimeSeries :=
  resampleRightMean (if upsample_first then upsample d else d) S

/-- `data.shift(freq=h)`: move every timestamp forward by `h` seconds. -/
def shiftSeries (d : TimeSeries) (h : ℚ) : TimeSeries :=
  d.map (fun p => (p.1 + h, p.2))

/-- A pandas resampling period: either a fixed-length offset (a `Tick`,
e.g. `"h"` = 3600 s or `"15min"` = 900 s) or the calendar-variable
month offset (`"MS"`/`"ME"`), whose length is not a fixed duration. -/
inductive Period where
  | fixed : ℚ → Period
  | month : Period
deriving DecidableEq, Repr

/-- Caller-configuration errors (`ConfigurationError` of the spec): pandas
raises when a non-fixed `DateOffset` is divided, since only `Tick` offsets
support `to_offset(period) / 2`. -/
inductive ConfigError where
  | nonFixedPeriod : ConfigError
  | invalidDatum : ConfigError
deriving DecidableEq, Repr

/-- `rollup_midpoint` (`stations.py:247-316`): optional upsampling, then
`half_period = to_offset(period) / 2` — which fails for a calendar-variable
offset — then `data.shift(freq=half_period).resample(period, label="left",
closed="left").mean()`. -/
def rollup_midpoint (d : TimeSeries) (p : Period) (upsample_first : Bool) :
    Except ConfigError TimeSeries :=
  let d2 := if upsample_first then upsample d else d
  match p with
  | .month => .error .nonFixedPeriod
  | .fixed S => .ok (resampleLeftMean (shiftSeries d2 (S / 2)) S)

/-! ## Data-fetch orchestrator (`stations.py:489-715`) -/

/-- A sort key for `DateTimeUTC` that is strictly monotone in the
lexicographic (year, month, day, hour, minute) order, mirroring the total
order on pandas timestamps. -/
def dtKey (d : DateTimeUTC) : ℕ :=
  (((d.year * 13 + d.month) * 32 + d.day) * 24 + d.hour) * 60 + d.minute

/-- The datetime index that `Station.fetch_data` (`stations.py:672-691`)
attaches to the assembled table:
`timestamps = pd.DatetimeIndex([d.control.dt for d in data])`, in record
arrival order, with no re-sorting before the rollup step. -/
def fetchDataIndex (records : List ISDRecord) : List ℕ :=
  records.map (fun r => dtKey r.control.dt)

/-- One `FileCount` inventory row of the metadata store, as used by
`Station.get_filenames`. -/
structure FileCountRow where
  wban_id : String
  year : ℕ
deriving DecidableEq, Repr

/-- The station metadata `Station.get_filenames` consults: its USAF
identifier, its most recently known WBAN identifier, and the inventory
rows of the metadata store for this station. -/
structure StationMeta where
  usaf_id : String
  recent_wban_id : String
  filecounts : List FileCountRow
deriving DecidableEq, Repr

/-- The filename template `"/pub/data/noaa/{2}/{0}-{1}-{2}.gz"`
(`stations.py:508`). -/
def filenameTemplate (usaf wban yearStr : String) : String :=
  "/pub/data/noaa/" ++ yearStr ++ "/" ++ usaf ++ "-" ++ wban ++ "-" ++ yearStr ++ ".gz"

/-- `str(year)` for the template argument (`str(None)` is `"None"`). -/
def yearArg : Option ℕ → String
  | some y => toString y
  | none => "None"

/-- `Station.get_filenames` (`stations.py:489-524`): build one filename per
inventory row matching the requested year; when none match, fall back to a
single best-guess filename built from the most recently known WBAN
identifier and emit a (non-fatal) `UserWarning`.  The returned flag records
whether the warning was emitted. -/
def get_filenames (st : StationMeta) (year : Option ℕ) : List String × Bool :=
  let rows : List FileCountRow := match year with
    | some y => st.filecounts.filter (fun r => r.year = y)
    | none => st.filecounts
  let filenames := rows.map (fun r => filenameTemplate st.usaf_id r.wban_id (toString r.year))
  if filenames = [] then
    ([filenameTemplate st.usaf_id st.recent_wban_id (yearArg year)], true)
  else
    (filenames, false)

/-- `c == b && prefixChars as bs`-style check that `pat` begins `cs`. -/
def beginsWith : List Char → List Char → Bool
  | [], _ => true
  | _ :: _, [] => false
  | p :: ps, c :: cs => p = c && beginsWith ps cs

/-- Substring containment, the semantics of pandas
`columns.str.contains(pat)` for a plain (non-regex-special) pattern. -/
def strContainsSub (s pat : String) : Bool :=
  (List.range (s.data.length + 1)).any (fun i => beginsWith pat.data (s.data.drop i))

/-- The mandatory observation groups in `MandatoryData` field order, each
with the column names its `model_dump` produces (computed field
`temperature_f` included). -/
def mandatoryGroups : List (String × List String) :=
  [("wind", ["direction_angle", "direction_quality_code", "type_code",
             "speed_rate", "speed_quality_code"]),
   ("ceiling", ["ceiling_height", "ceiling_quality_code",
                "ceiling_determination_code", "cavok_code"]),
   ("visibility", ["distance", "distance_quality_code",
                   "variability_code", "variability_quality_code"]),
   ("air_temperature", ["temperature_c", "quality_code", "temperature_f"]),
   ("dew_point", ["temperature_c", "quality_code", "temperature_f"]),
   ("sea_level_pressure", ["pressure", "quality_code"])]

/-- The flat control-data columns of
`d.control.model_dump(exclude={"dt"})` (`stations.py:676`). -/
def controlColumns : List String :=
  ["total_variable_characters", "usaf_id", "wban_id", "data_source_flag",
   "latitude", "longitude", "report_type_code", "elevation",
   "call_letter_id", "qc_process_name"]

/-- `_AGGREGABLE_FIELDS` (`stations.py:37-44`) flattened to the
`cols_to_keep` dotted names of `stations.py:701`. -/
def aggregableColumns : List String :=
  ["wind.speed_rate", "ceiling.ceiling_height", "visibility.distance",
   "air_temperature.temperature_c", "air_temperature.temperature_f",
   "dew_point.temperature_c", "dew_point.temperature_f",
   "sea_level_pressure.pressure"]

/-- The `temp_scale` column filter of `stations.py:694-698`. -/
def tempScaleFilter (cols : List String) : Option String → List String
  | none => cols
  | some s =>
    if s = "C" ∨ s = "c" then cols.filter (fun c => !(strContainsSub c "temperature_f"))
    else if s = "F" ∨ s = "f" then cols.filter (fun c => !(strContainsSub c "temperature_c"))
    else cols

/-- The column pipeline of `Station.fetch_data` (`stations.py:660-711`):
validate `datum`, assemble control columns (when requested) and the dotted
mandatory columns of the selected groups, drop quality-code columns when
`include_quality_codes=False`, apply the `temp_scale` filter, and — when a
resampling `period` is given — restrict to the `_AGGREGABLE_FIELDS`
columns.  Row values play no part in which columns survive, so only the
column list is modelled. -/
def validateDatum (datum : Option (List String)) :
    Except ConfigError (List (String × List String)) :=
  match datum with
  | none => .ok mandatoryGroups
  | some ds =>
    if ds.all (fun x => (mandatoryGroups.map (fun g => g.1)).contains x) then
      .ok (mandatoryGroups.filter (fun g => ds.contains g.1))
    else
      .error .invalidDatum

def fetchDataColumns (datum : Option (List String)) (include_control : Bool)
    (include_quality_codes : Bool) (temp_scale : Option String)
    (period : Option ℚ) : Except ConfigError (List String) := do
  let groups ← validateDatum datum
  let mcols := groups.flatMap (fun g => g.2.map (fun f => g.1 ++ "." ++ f))
  let cols := (if include_control then controlColumns else []) ++ mcols
  let cols := if include_quality_codes then cols
    else cols.filter (fun c => !(strContainsSub c "quality_code"))
  let cols := tempScaleFilter cols temp_scale
  let cols := match period with
    | none => cols
    | some _ => cols.filter (fun c => aggregableColumns.contains c)
  pure cols

/-! ## Concrete test fixtures -/

instance {ε α : Type} [DecidableEq ε] [DecidableEq α] : DecidableEq (Except ε α) := fun a b =>
  match a, b with
  | .error x, .error y =>
    if h : x = y then isTrue (by rw [h]) else isFalse (fun hh => h (Except.error.inj hh))
  | .error _, .ok _ => isFalse (fun hh => Except.noConfusion hh)
  | .ok _, .error _ => isFalse (fun hh => Except.noConfusion hh)
  | .ok x, .ok y =>
    if h : x = y then isTrue (by rw [h]) else isFalse (fun hh => h (Except.ok.inj hh))

/-- A well-formed 105-character ISD line for station `720534`/`00161`
observed at `201809220115` (the identifiers and datetime of the spec's
example), with mandatory data resembling the repository's doctest values. -/
def exLine : String :=
  "0165720534001612018092201157+40017-105050FM-15+1563KEIK V0202605N004652200059N0160935N5-00285-00405101805"

/-- The record `parse_line` produces from `exLine`. -/
def exRecord : ISDRecord :=
  ⟨⟨165, "720534", "00161", ⟨2018, 9, 22, 1, 15⟩, some "7", some ((40017 : ℚ) / 1000),
    some ((-105050 : ℚ) / 1000), some "FM-15", some 1563, some "KEIK", "V020"⟩,
   ⟨⟨some 260, "5", some "N", some ((46 : ℚ) / 10), "5"⟩,
    ⟨some 22000, "5", none, some "N"⟩,
    ⟨some 16093, "5", some "N", "5"⟩,
    ⟨some ((-28 : ℚ) / 10), "5"⟩,
    ⟨some ((-40 : ℚ) / 10), "5"⟩,
    ⟨some ((10180 : ℚ) / 10), "5"⟩⟩, []⟩

/-- `exLine` with its datetime token replaced by `201809310115`
(September 31, an invalid calendar date). -/
def exBadLine : String :=
  "0165720534001612018093101157+40017-105050FM-15+1563KEIK V0202605N004652200059N0160935N5-00285-00405101805"

/-- The doctest series of `stations.py`: values 1, 2, 10 at 00:01, 00:33,
01:05 (seconds 60, 1980, 3900). -/
def exRollup : TimeSeries :=
  [((60 : ℚ), some 1), ((1980 : ℚ), some 2), ((3900 : ℚ), some 10)]

/-- Two observations 63 minutes apart: the 62 minutes in between are a
missing-minute run longer than 60. -/
def exGap : TimeSeries :=
  [((0 : ℚ), some 0), ((3780 : ℚ), some 63)]

/-- A record observed at 2023-01-01T00:00Z. -/
def recLater : ISDRecord :=
  ⟨⟨100, "720534", "00161", ⟨2023, 1, 1, 0, 0⟩, none, none, none, none, none, none, "V020"⟩,
   ⟨⟨none, "5", none, none, "5"⟩, ⟨none, "5", none, none⟩, ⟨none, "5", none, "5"⟩,
    ⟨none, "5"⟩, ⟨none, "5"⟩, ⟨none, "5"⟩⟩, []⟩

/-- A record observed at 2022-01-01T00:00Z, arriving after `recLater`. -/
def recEarlier : ISDRecord :=
  ⟨⟨100, "720534", "00161", ⟨2022, 1, 1, 0, 0⟩, none, none, none, none, none, none, "V020"⟩,
   ⟨⟨none, "5", none, none, "5"⟩, ⟨none, "5", none, none⟩, ⟨none, "5", none, "5"⟩,
    ⟨none, "5"⟩, ⟨none, "5"⟩, ⟨none, "5"⟩⟩, []⟩

/-- Station metadata with inventory rows for 2021 and 2022 only. -/
def exStation : StationMeta :=
  ⟨"720534", "00161", [⟨"00161", 2021⟩, ⟨"00161", 2022⟩]⟩

/-! ## Helper lemmas -/

theorem except_bind_ok {ε α β : Type} {m : Except ε α} {f : α → Except ε β} {b : β}
    (h : m >>= f = Except.ok b) : ∃ a, m = Except.ok a ∧ f a = Except.ok b := by
  cases m with
  | error e => exact absurd h (by simp [Bind.bind, Except.bind])
  | ok a => exact ⟨a, rfl, h⟩

theorem checkMaxLen_ok {n : ℕ} {v x : String} (h : checkMaxLen n v = .ok x) : x = v := by
  unfold checkMaxLen at h
  split at h
  · exact (Except.ok.inj h).symm
  · exact Except.noConfusion h

theorem checkUsaf_ok {v x : String} (h : checkUsaf v = .ok x) : x = v := by
  unfold checkUsaf at h
  split at h
  · exact (Except.ok.inj h).symm
  · exact Except.noConfusion h

theorem checkWban_ok {v x : String} (h : checkWban v = .ok x) : x = v := by
  unfold checkWban at h
  split at h
  · exact (Except.ok.inj h).symm
  · exact Except.noConfusion h

theorem wind_validate_ok {da dq tc sr sq : String} {w : WindObservation}
    (h : WindObservation.validate da dq tc sr sq = .ok w) :
    decodeOptInt da = .ok w.direction_angle ∧ w.direction_quality_code = dq ∧
    decodeOptStr 1 tc = .ok w.type_code ∧ decodeScaled 10 sr = .ok w.speed_rate ∧
    w.speed_quality_code = sq := by
  unfold WindObservation.validate at h
  obtain ⟨a1, h1, h⟩ := except_bind_ok h
  obtain ⟨a2, h2, h⟩ := except_bind_ok h
  obtain ⟨a3, h3, h⟩ := except_bind_ok h
  obtain ⟨a4, h4, h⟩ := except_bind_ok h
  obtain ⟨a5, h5, h⟩ := except_bind_ok h
  have hw : w = ⟨a1, a2, a3, a4, a5⟩ := (Except.ok.inj h).symm
  subst hw
  exact ⟨h1, checkMaxLen_ok h2, h3, h4, checkMaxLen_ok h5⟩

theorem sky_validate_ok {ch cq cd cv : String}
    {w : SkyConditionObservation} (h : SkyConditionObservation.validate ch cq cd cv = .ok w) :
    decodeOptInt ch = .ok w.ceiling_height ∧ w.ceiling_quality_code = cq ∧
    decodeOptStr 1 cd = .ok w.ceiling_determination_code ∧
    decodeOptStr 1 cv = .ok w.cavok_code := by
  unfold SkyConditionObservation.validate at h
  obtain ⟨a1, h1, h⟩ := except_bind_ok h
  obtain ⟨a2, h2, h⟩ := except_bind_ok h
  obtain ⟨a3, h3, h⟩ := except_bind_ok h
  obtain ⟨a4, h4, h⟩ := except_bind_ok h
  have hw : w = ⟨a1, a2, a3, a4⟩ := (Except.ok.inj h).symm
  subst hw
  exact ⟨h1, checkMaxLen_ok h2, h3, h4⟩

theorem visibility_validate_ok {di dq vc vq : String}
    {w : VisibilityObservation} (h : VisibilityObservation.validate di dq vc vq = .ok w) :
    decodeOptInt di = .ok w.distance ∧ w.distance_quality_code = dq ∧
    decodeOptStr 1 vc = .ok w.variability_code ∧ w.variability_quality_code = vq := by
  unfold VisibilityObservation.validate at h
  obtain ⟨a1, h1, h⟩ := except_bind_ok h
  obtain ⟨a2, h2, h⟩ := except_bind_ok h
  obtain ⟨a3, h3, h⟩ := except_bind_ok h
  obtain ⟨a4, h4, h⟩ := except_bind_ok h
  have hw : w = ⟨a1, a2, a3, a4⟩ := (Except.ok.inj h).symm
  subst hw
  exact ⟨h1, checkMaxLen_ok h2, h3, checkMaxLen_ok h4⟩

theorem air_temperature_validate_ok {tc qc : String}
    {w : AirTemperatureObservation} (h : AirTemperatureObservation.validate tc qc = .ok w) :
    decodeScaled 10 tc = .ok w.temperature_c ∧ w.quality_code = qc := by
  unfold AirTemperatureObservation.validate at h
  obtain ⟨a1, h1, h⟩ := except_bind_ok h
  obtain ⟨a2, h2, h⟩ := except_bind_ok h
  have hw : w = ⟨a1, a2⟩ := (Except.ok.inj h).symm
  subst hw
  exact ⟨h1, checkMaxLen_ok h2⟩

theorem pressure_validate_ok {pr qc : String}
    {w : AtmosphericPressureObservation}
    (h : AtmosphericPressureObservation.validate pr qc = .ok w) :
    decodeScaled 10 pr = .ok w.pressure ∧ w.quality_code = qc := by
  unfold AtmosphericPressureObservation.validate at h
  obtain ⟨a1, h1, h⟩ := except_bind_ok h
  obtain ⟨a2, h2, h⟩ := except_bind_ok h
  have hw : w = ⟨a1, a2⟩ := (Except.ok.inj h).symm
  subst hw
  exact ⟨h1, checkMaxLen_ok h2⟩

theorem control_validate_ok {tvc usaf wban dt dsf lat lon rtc elev cli qc : String}
    {c : ControlData}
    (h : ControlData.validate tvc usaf wban dt dsf lat lon rtc elev cli qc = .ok c) :
    decodeInt tvc = .ok c.total_variable_characters ∧ c.usaf_id = usaf ∧
    c.wban_id = wban ∧ parse_datetime dt = .ok c.dt ∧
    decodeOptStr 1 dsf = .ok c.data_source_flag ∧
    decodeScaled 1000 lat = .ok c.latitude ∧ decodeScaled 1000 lon = .ok c.longitude ∧
    decodeOptStr 5 rtc = .ok c.report_type_code ∧ decodeOptInt elev = .ok c.elevation ∧
    decodeOptStr 5 cli = .ok c.call_letter_id ∧ c.qc_process_name = qc := by
  unfold ControlData.validate at h
  obtain ⟨a1, h1, h⟩ := except_bind_ok h
  obtain ⟨a2, h2, h⟩ := except_bind_ok h
  obtain ⟨a3, h3, h⟩ := except_bind_ok h
  obtain ⟨a4, h4, h⟩ := except_bind_ok h
  obtain ⟨a5, h5, h⟩ := except_bind_ok h
  obtain ⟨a6, h6, h⟩ := except_bind_ok h
  obtain ⟨a7, h7, h⟩ := except_bind_ok h
  obtain ⟨a8, h8, h⟩ := except_bind_ok h
  obtain ⟨a9, h9, h⟩ := except_bind_ok h
  obtain ⟨a10, h10, h⟩ := except_bind_ok h
  obtain ⟨a11, h11, h⟩ := except_bind_ok h
  have hc : c = ⟨a1, a2, a3, a4, a5, a6, a7, a8, a9, a10, a11⟩ := (Except.ok.inj h).symm
  subst hc
  exact ⟨h1, checkUsaf_ok h2, checkWban_ok h3, h4, h5, h6, h7, h8, h9, h10, checkMaxLen_ok h11⟩

theorem pyCharAt_ok {cs : List Char} {i : ℕ} {s : String}
    (h : pyCharAt cs i = .ok s) : s = ⟨pySlice cs i (i + 1)⟩ := by
  unfold pyCharAt at h
  cases hg : cs.get? i with
  | none => rw [hg] at h; exact Except.noConfusion h
  | some c =>
    rw [hg] at h
    have hs : s = ⟨[c]⟩ := (Except.ok.inj h).symm
    subst hs
    unfold pySlice
    congr 1
    have hdrop : (cs.drop i).get? 0 = some c := by
      rw [List.get?_drop]; simpa using hg
    cases hd : cs.drop i with
    | nil => rw [hd] at hdrop; exact Option.noConfusion hdrop
    | cons a t =>
      rw [hd] at hdrop
      have : a = c := by simpa using hdrop
      subst this
      simp

/-- Eliminates a successful `parse_line`: every field of the resulting
record is the decode of its fixed slice of the line. -/
theorem parse_line_ok {line : String} {r : ISDRecord} (h : parse_line line = .ok r) :
    decodeInt (sliceStr line 0 4) = .ok r.control.total_variable_characters ∧
    r.control.usaf_id = sliceStr line 4 10 ∧
    r.control.wban_id = sliceStr line 10 15 ∧
    parse_datetime (sliceStr line 15 27) = .ok r.control.dt ∧
    decodeOptStr 1 (sliceStr line 27 28) = .ok r.control.data_source_flag ∧
    decodeScaled 1000 (sliceStr line 28 34) = .ok r.control.latitude ∧
    decodeScaled 1000 (sliceStr line 34 41) = .ok r.control.longitude ∧
    decodeOptStr 5 (sliceStr line 41 46) = .ok r.control.report_type_code ∧
    decodeOptInt (sliceStr line 46 51) = .ok r.control.elevation ∧
    decodeOptStr 5 (sliceStr line 51 56) = .ok r.control.call_letter_id ∧
    r.control.qc_process_name = sliceStr line 56 60 ∧
    decodeOptInt (sliceStr line 60 63) = .ok r.mandatory.wind.direction_angle ∧
    r.mandatory.wind.direction_quality_code = sliceStr line 63 64 ∧
    decodeOptStr 1 (sliceStr line 64 65) = .ok r.mandatory.wind.type_code ∧
    decodeScaled 10 (sliceStr line 65 69) = .ok r.mandatory.wind.speed_rate ∧
    r.mandatory.wind.speed_quality_code = sliceStr line 69 70 ∧
    decodeOptInt (sliceStr line 70 75) = .ok r.mandatory.ceiling.ceiling_height ∧
    r.mandatory.ceiling.ceiling_quality_code = sliceStr line 75 76 ∧
    decodeOptStr 1 (sliceStr line 76 77) = .ok r.mandatory.ceiling.ceiling_determination_code ∧
    decodeOptStr 1 (sliceStr line 77 78) = .ok r.mandatory.ceiling.cavok_code ∧
    decodeOptInt (sliceStr line 78 84) = .ok r.mandatory.visibility.distance ∧
    r.mandatory.visibility.distance_quality_code = sliceStr line 84 85 ∧
    decodeOptStr 1 (sliceStr line 85 86) = .ok r.mandatory.visibility.variability_code ∧
    r.mandatory.visibility.variability_quality_code = sliceStr line 86 87 ∧
    decodeScaled 10 (sliceStr line 87 92) = .ok r.mandatory.air_temperature.temperature_c ∧
    r.mandatory.air_temperature.quality_code = sliceStr line 92 93 ∧
    decodeScaled 10 (sliceStr line 93 98) = .ok r.mandatory.dew_point.temperature_c ∧
    r.mandatory.dew_point.quality_code = sliceStr line 98 99 ∧
    decodeScaled 10 (sliceStr line 99 104) = .ok r.mandatory.sea_level_pressure.pressure ∧
    r.mandatory.sea_level_pressure.quality_code = sliceStr line 104 105 := by
  unfold parse_line at h
  obtain ⟨dsf, h27, h⟩ := except_bind_ok h
  obtain ⟨wdq, h63, h⟩ := except_bind_ok h
  obtain ⟨wtc, h64, h⟩ := except_bind_ok h
  obtain ⟨wsq, h69, h⟩ := except_bind_ok h
  obtain ⟨wind, hwind, h⟩ := except_bind_ok h
  obtain ⟨ccq, h75, h⟩ := except_bind_ok h
  obtain ⟨ccd, h76, h⟩ := except_bind_ok h
  obtain ⟨ccv, h77, h⟩ := except_bind_ok h
  obtain ⟨ceiling, hceiling, h⟩ := except_bind_ok h
  obtain ⟨vdq, h84, h⟩ := except_bind_ok h
  obtain ⟨vvc, h85, h⟩ := except_bind_ok h
  obtain ⟨vvq, h86, h⟩ := except_bind_ok h
  obtain ⟨vis, hvis, h⟩ := except_bind_ok h
  obtain ⟨atq, h92, h⟩ := except_bind_ok h
  obtain ⟨airt, hairt, h⟩ := except_bind_ok h
  obtain ⟨dpq, h98, h⟩ := except_bind_ok h
  obtain ⟨dewp, hdewp, h⟩ := except_bind_ok h
  obtain ⟨spq, h104, h⟩ := except_bind_ok h
  obtain ⟨slp, hslp, h⟩ := except_bind_ok h
  obtain ⟨control, hcontrol, h⟩ := except_bind_ok h
  have hr : r = ⟨control, ⟨wind, ceiling, vis, airt, dewp, slp⟩, []⟩ := (Except.ok.inj h).symm
  subst hr
  obtain ⟨hc1, hc2, hc3, hc4, hc5, hc6, hc7, hc8, hc9, hc10, hc11⟩ :=
    control_validate_ok hcontrol
  obtain ⟨hw1, hw2, hw3, hw4, hw5⟩ := wind_validate_ok hwind
  obtain ⟨hs1, hs2, hs3, hs4⟩ := sky_validate_ok hceiling
  obtain ⟨hv1, hv2, hv3, hv4⟩ := visibility_validate_ok hvis
  obtain ⟨ha1, ha2⟩ := air_temperature_validate_ok hairt
  obtain ⟨hd1, hd2⟩ := air_temperature_validate_ok hdewp
  obtain ⟨hp1, hp2⟩ := pressure_validate_ok hslp
  rw [pyCharAt_ok h27] at hc5
  rw [pyCharAt_ok h63] at hw2
  rw [pyCharAt_ok h64] at hw3
  rw [pyCharAt_ok h69] at hw5
  rw [pyCharAt_ok h75] at hs2
  rw [pyCharAt_ok h76] at hs3
  rw [pyCharAt_ok h77] at hs4
  rw [pyCharAt_ok h84] at hv2
  rw [pyCharAt_ok h85] at hv3
  rw [pyCharAt_ok h86] at hv4
  rw [pyCharAt_ok h92] at ha2
  rw [pyCharAt_ok h98] at hd2
  rw [pyCharAt_ok h104] at hp2
  exact ⟨hc1, hc2, hc3, hc4, hc5, hc6, hc7, hc8, hc9, hc10, hc11,
    hw1, hw2, hw3, hw4, hw5, hs1, hs2, hs3, hs4, hv1, hv2, hv3, hv4,
    ha1, ha2, hd1, hd2, hp1, hp2⟩

/-! ## Claim theorems -/

/-- Claim C1: every raw token that, after trimming whitespace, matches
`^[+-]?9+$` decodes to absent under `missing_if_all_nines`, for every
scaling factor (and so for every token width). -/
theorem all_nines_decodes_absent (v : String) (sf : ℚ)
    (h : matchesAllNines (pyStrip v).data = true) :
    missing_if_all_nines v sf = .ok none := by
  simp [missing_if_all_nines, h]

/-- Witness for C1: `"+9999"` with scaling factor 10 decodes to absent,
not `999.9`. -/
theorem all_nines_decodes_absent_witness :
    matchesAllNines (pyStrip "+9999").data = true ∧
    missing_if_all_nines "+9999" 10 = .ok none :=
  ⟨by decide, all_nines_decodes_absent "+9999" 10 (by decide)⟩

/-- Claim C2: on every line of at least 105 characters that parses, every
control field and every mandatory observation field comes from exactly the
claimed 0-indexed half-open ranges, with latitude and longitude divided by
1000 and wind speed, air temperature, dew point and pressure divided
by 10 (the scaling factors are the `1000` and `10` arguments of
`decodeScaled`). -/
theorem parse_line_field_offsets (line : String) (r : ISDRecord)
    (hlen : 105 ≤ line.length) (h : parse_line line = .ok r) :
    decodeInt (sliceStr line 0 4) = .ok r.control.total_variable_characters ∧
    r.control.usaf_id = sliceStr line 4 10 ∧
    r.control.wban_id = sliceStr line 10 15 ∧
    parse_datetime (sliceStr line 15 27) = .ok r.control.dt ∧
    decodeOptStr 1 (sliceStr line 27 28) = .ok r.control.data_source_flag ∧
    decodeScaled 1000 (sliceStr line 28 34) = .ok r.control.latitude ∧
    decodeScaled 1000 (sliceStr line 34 41) = .ok r.control.longitude ∧
    decodeOptStr 5 (sliceStr line 41 46) = .ok r.control.report_type_code ∧
    decodeOptInt (sliceStr line 46 51) = .ok r.control.elevation ∧
    decodeOptStr 5 (sliceStr line 51 56) = .ok r.control.call_letter_id ∧
    r.control.qc_process_name = sliceStr line 56 60 ∧
    decodeOptInt (sliceStr line 60 63) = .ok r.mandatory.wind.direction_angle ∧
    r.mandatory.wind.direction_quality_code = sliceStr line 63 64 ∧
    decodeOptStr 1 (sliceStr line 64 65) = .ok r.mandatory.wind.type_code ∧
    decodeScaled 10 (sliceStr line 65 69) = .ok r.mandatory.wind.speed_rate ∧
    r.mandatory.wind.speed_quality_code = sliceStr line 69 70 ∧
    decodeOptInt (sliceStr line 70 75) = .ok r.mandatory.ceiling.ceiling_height ∧
    r.mandatory.ceiling.ceiling_quality_code = sliceStr line 75 76 ∧
    decodeOptStr 1 (sliceStr line 76 77) = .ok r.mandatory.ceiling.ceiling_determination_code ∧
    decodeOptStr 1 (sliceStr line 77 78) = .ok r.mandatory.ceiling.cavok_code ∧
    decodeOptInt (sliceStr line 78 84) = .ok r.mandatory.visibility.distance ∧
    r.mandatory.visibility.distance_quality_code = sliceStr line 84 85 ∧
    decodeOptStr 1 (sliceStr line 85 86) = .ok r.mandatory.visibility.variability_code ∧
    r.mandatory.visibility.variability_quality_code = sliceStr line 86 87 ∧
    decodeScaled 10 (sliceStr line 87 92) = .ok r.mandatory.air_temperature.temperature_c ∧
    r.mandatory.air_temperature.quality_code = sliceStr line 92 93 ∧
    decodeScaled 10 (sliceStr line 93 98) = .ok r.mandatory.dew_point.temperature_c ∧
    r.mandatory.dew_point.quality_code = sliceStr line 98 99 ∧
    decodeScaled 10 (sliceStr line 99 104) = .ok r.mandatory.sea_level_pressure.pressure ∧
    r.mandatory.sea_level_pressure.quality_code = sliceStr line 104 105 :=
  parse_line_ok h

set_option maxRecDepth 4000 in
/-- Witness for C2: a concrete 105-character line parses and its fields are
the decodes of the claimed slices. -/
theorem parse_line_field_offsets_witness :
    decodeInt (sliceStr exLine 0 4) = .ok exRecord.control.total_variable_characters ∧
    exRecord.control.usaf_id = sliceStr exLine 4 10 ∧
    exRecord.control.wban_id = sliceStr exLine 10 15 ∧
    parse_datetime (sliceStr exLine 15 27) = .ok exRecord.control.dt ∧
    decodeOptStr 1 (sliceStr exLine 27 28) = .ok exRecord.control.data_source_flag ∧
    decodeScaled 1000 (sliceStr exLine 28 34) = .ok exRecord.control.latitude ∧
    decodeScaled 1000 (sliceStr exLine 34 41) = .ok exRecord.control.longitude ∧
    decodeOptStr 5 (sliceStr exLine 41 46) = .ok exRecord.control.report_type_code ∧
    decodeOptInt (sliceStr exLine 46 51) = .ok exRecord.control.elevation ∧
    decodeOptStr 5 (sliceStr exLine 51 56) = .ok exRecord.control.call_letter_id ∧
    exRecord.control.qc_process_name = sliceStr exLine 56 60 ∧
    decodeOptInt (sliceStr exLine 60 63) = .ok exRecord.mandatory.wind.direction_angle ∧
    exRecord.mandatory.wind.direction_quality_code = sliceStr exLine 63 64 ∧
    decodeOptStr 1 (sliceStr exLine 64 65) = .ok exRecord.mandatory.wind.type_code ∧
    decodeScaled 10 (sliceStr exLine 65 69) = .ok exRecord.mandatory.wind.speed_rate ∧
    exRecord.mandatory.wind.speed_quality_code = sliceStr exLine 69 70 ∧
    decodeOptInt (sliceStr exLine 70 75) = .ok exRecord.mandatory.ceiling.ceiling_height ∧
    exRecord.mandatory.ceiling.ceiling_quality_code = sliceStr exLine 75 76 ∧
    decodeOptStr 1 (sliceStr exLine 76 77) =
      .ok exRecord.mandatory.ceiling.ceiling_determination_code ∧
    decodeOptStr 1 (sliceStr exLine 77 78) = .ok exRecord.mandatory.ceiling.cavok_code ∧
    decodeOptInt (sliceStr exLine 78 84) = .ok exRecord.mandatory.visibility.distance ∧
    exRecord.mandatory.visibility.distance_quality_code = sliceStr exLine 84 85 ∧
    decodeOptStr 1 (sliceStr exLine 85 86) = .ok exRecord.mandatory.visibility.variability_code ∧
    exRecord.mandatory.visibility.variability_quality_code = sliceStr exLine 86 87 ∧
    decodeScaled 10 (sliceStr exLine 87 92) =
      .ok exRecord.mandatory.air_temperature.temperature_c ∧
    exRecord.mandatory.air_temperature.quality_code = sliceStr exLine 92 93 ∧
    decodeScaled 10 (sliceStr exLine 93 98) = .ok exRecord.mandatory.dew_point.temperature_c ∧
    exRecord.mandatory.dew_point.quality_code = sliceStr exLine 98 99 ∧
    decodeScaled 10 (sliceStr exLine 99 104) =
      .ok exRecord.mandatory.sea_level_pressure.pressure ∧
    exRecord.mandatory.sea_level_pressure.quality_code = sliceStr exLine 104 105 :=
  parse_line_field_offsets exLine exRecord (by decide) (by with_unfolding_all rfl)

/-- Claim C6: `temperature_f` equals `temperature_c * 1.8 + 32` exactly
whenever `temperature_c` is present, and the two are absent together. -/
theorem temperature_f_conversion (t : AirTemperatureObservation) :
    t.temperature_f = t.temperature_c.map (fun c => c * 1.8 + 32) ∧
    (t.temperature_f = none ↔ t.temperature_c = none) := by
  obtain ⟨tc, qc⟩ := t
  cases tc <;> simp [AirTemperatureObservation.temperature_f]

/-- Claim C5: `rollup_midpoint` fails with a configuration error on the
calendar-variable month period (for every input series and upsampling
flag), and on every fixed period it shifts the (optionally upsampled)
series forward by exactly half the period and then applies
`rollup_starting`'s bucketing, labeling and averaging. -/
theorem rollup_midpoint_behaviour :
    (∀ (d : TimeSeries) (u : Bool),
      rollup_midpoint d Period.month u = .error ConfigError.nonFixedPeriod) ∧
    (∀ (d : TimeSeries) (S : ℚ) (u : Bool),
      rollup_midpoint d (Period.fixed S) u =
        .ok (rollup_starting (shiftSeries (if u then upsample d else d) (S / 2)) S false)) :=
  ⟨fun _ _ => rfl, fun _ _ _ => rfl⟩

/-- Claim C9: when the metadata store has no inventory row for the
requested year, `get_filenames` warns (non-fatally) and still returns
exactly one best-guess filename built from the station's most recently
known WBAN identifier. -/
theorem get_filenames_best_guess (st : StationMeta) (y : ℕ)
    (h : st.filecounts.filter (fun row => row.year = y) = []) :
    get_filenames st (some y) =
      ([filenameTemplate st.usaf_id st.recent_wban_id (toString y)], true) := by
  simp [get_filenames, h, yearArg]

/-- Witness for C9: fetching the unknown year 2026 for a station with
2021–2022 inventory warns and returns the single guessed filename. -/
theorem get_filenames_best_guess_witness :
    exStation.filecounts.filter (fun row => row.year = 2026) = [] ∧
    get_filenames exStation (some 2026) =
      ([filenameTemplate exStation.usaf_id exStation.recent_wban_id (toString 2026)], true) :=
  ⟨by decide, get_filenames_best_guess exStation 2026 (by decide)⟩

/-- A successful `parse_datetime` implies the token is a valid
`YYYYMMDDHHMM` calendar date-time in the spec's sense. -/
theorem parse_datetime_ok_valid {s : String} {d : DateTimeUTC}
    (h : parse_datetime s = .ok d) : isValidYMDHM s = true := by
  simp only [parse_datetime] at h
  split at h
  · rename_i h1
    split at h
    · rename_i h2
      simp [isValidYMDHM, h1.1, h1.2, h2.1, h2.2.1, h2.2.2.1, h2.2.2.2.1,
        h2.2.2.2.2.1, h2.2.2.2.2.2.1, h2.2.2.2.2.2.2]
    · exact Except.noConfusion h
  · exact Except.noConfusion h

/-- Claim C7: a line whose 12-character datetime token at `[15:27)` is not
a valid `YYYYMMDDHHMM` calendar date-time makes `parse_line` raise a
`FormatError` rather than clamping — in particular `"201809310115"`
(September 31) raises — and a valid token is interpreted as UTC with no
timezone conversion: a parsed line whose token is `"201809220115"` carries
the timestamp 2018-09-22T01:15:00Z. -/
theorem parse_line_datetime_validation :
    (∀ line : String, isValidYMDHM (sliceStr line 15 27) = false →
      ∃ e, parse_line line = .error e) ∧
    parse_datetime "201809310115" = .error .valueError ∧
    (∀ (line : String) (r : ISDRecord), parse_line line = .ok r →
      sliceStr line 15 27 = "201809220115" → r.control.dt = ⟨2018, 9, 22, 1, 15⟩) := by
  refine ⟨fun line hv => ?_, by decide, fun line r h hs => ?_⟩
  · cases hres : parse_line line with
    | error e => exact ⟨e, rfl⟩
    | ok r =>
      have h4 := (parse_line_ok hres).2.2.2.1
      have hvalid := parse_datetime_ok_valid h4
      rw [hv] at hvalid
      exact absurd hvalid (by simp)
  · have h4 := (parse_line_ok h).2.2.2.1
    rw [hs] at h4
    have hconc : parse_datetime "201809220115" = .ok ⟨2018, 9, 22, 1, 15⟩ := by decide
    rw [hconc] at h4
    exact (Except.ok.inj h4).symm

/-- Witness for C7: the concrete line with token `"201809310115"` fails to
parse, and the concrete valid line's record carries 2018-09-22T01:15:00Z. -/
theorem parse_line_datetime_validation_witness :
    (∃ e, parse_line exBadLine = .error e) ∧
    exRecord.control.dt = ⟨2018, 9, 22, 1, 15⟩ :=
  ⟨parse_line_datetime_validation.1 exBadLine (by decide),
   parse_line_datetime_validation.2.2 exLine exRecord (by with_unfolding_all rfl) (by decide)⟩

/-- Claim C10: with a non-null resampling period, the `fetch_data` column
pipeline keeps only the aggregable numeric value columns: the wind
direction angle, every quality-code column and every control-data column
are dropped, for every `datum` selection and regardless of
`include_control` and `include_quality_codes` (and of `temp_scale`). -/
theorem fetch_data_period_columns (datum : Option (List String))
    (include_control include_quality_codes : Bool) (temp_scale : Option String)
    (p : ℚ) (cols : List String)
    (h : fetchDataColumns datum include_control include_quality_codes temp_scale (some p) =
      .ok cols) :
    (∀ c ∈ cols, c ∈ aggregableColumns) ∧
    "wind.direction_angle" ∉ cols ∧
    (∀ c ∈ cols, strContainsSub c "quality_code" = false) ∧
    (∀ c ∈ controlColumns, c ∉ cols) := by
  unfold fetchDataColumns at h
  obtain ⟨groups, hgroups, h⟩ := except_bind_ok h
  have hcols : cols = _ := (Except.ok.inj h).symm
  have hsub : ∀ c ∈ cols, c ∈ aggregableColumns := by
    intro c hc
    rw [hcols] at hc
    have := (List.mem_filter.mp hc).2
    simpa using this
  refine ⟨hsub, fun hmem => ?_, fun c hc => ?_, fun c hcc hc => ?_⟩
  · exact absurd (hsub _ hmem) (by decide)
  · exact (by decide : ∀ c ∈ aggregableColumns, strContainsSub c "quality_code" = false)
      c (hsub c hc)
  · exact (by decide : ∀ c ∈ controlColumns, c ∉ aggregableColumns) c hcc (hsub c hc)

/-- Witness for C10: the default configuration (all groups, control data
included, quality codes kept) with an hourly period keeps exactly the
aggregable columns, and the stated exclusions hold of them. -/
theorem fetch_data_period_columns_witness :
    (∀ c ∈ aggregableColumns, c ∈ aggregableColumns) ∧
    "wind.direction_angle" ∉ aggregableColumns ∧
    (∀ c ∈ aggregableColumns, strContainsSub c "quality_code" = false) ∧
    (∀ c ∈ controlColumns, c ∉ aggregableColumns) :=
  fetch_data_period_columns none true true none 3600 aggregableColumns (by with_unfolding_all rfl)

/-- Claim C8 (refuted by the code): the datetime index `fetch_data`
assembles and hands to the resampling step is in record arrival order with
no re-sort, so two records arriving in reversed timestamp order reach the
rollup with a strictly decreasing — not monotonically increasing — index. -/
theorem fetch_data_index_not_sorted :
    fetchDataIndex [recLater, recEarlier] =
      [dtKey ⟨2023, 1, 1, 0, 0⟩, dtKey ⟨2022, 1, 1, 0, 0⟩] ∧
    dtKey ⟨2022, 1, 1, 0, 0⟩ < dtKey ⟨2023, 1, 1, 0, 0⟩ := by
  exact ⟨rfl, by decide⟩

/-- For a positive period, lying in the closed-right bucket labelled `k*S`
is the same as `⌈t/S⌉ = k`. -/
theorem ceilIdx_eq_iff {t S : ℚ} {k : ℤ} (hS : 0 < S) :
    ceilIdx t S = k ↔ (t ≤ (k : ℚ) * S ∧ (k : ℚ) * S < t + S) := by
  rw [ceilIdx, Int.ceil_eq_iff]
  constructor
  · rintro ⟨hlt, hle⟩
    refine ⟨(div_le_iff hS).mp hle, ?_⟩
    have h1 := (lt_div_iff hS).mp hlt
    have h2 : ((k : ℚ) - 1) * S = (k : ℚ) * S - S := by ring
    linarith
  · rintro ⟨h1, h2⟩
    constructor
    · rw [lt_div_iff hS]
      have h3 : ((k : ℚ) - 1) * S = (k : ℚ) * S - S := by ring
      linarith
    · rw [div_le_iff hS]
      exact h1

/-- Any row of `resample(S, label="right", closed="right").mean()` is the
mean of the present values in the left-open/right-closed interval
`(L - S, L]` of its label `L`, which is an integer multiple of `S`. -/
theorem resampleRightMean_mem {d : TimeSeries} {S : ℚ} (hS : 0 < S) {L : ℚ} {v : Option ℚ}
    (hmem : (L, v) ∈ resampleRightMean d S) :
    (∃ k : ℤ, L = (k : ℚ) * S) ∧
    v = meanOpt ((d.filter (fun p => decide (p.1 ≤ L ∧ L < p.1 + S))).filterMap
      (fun p => p.2)) := by
  simp only [resampleRightMean] at hmem
  split at hmem
  · exact absurd hmem (by simp)
  · simp only [List.mem_map, List.mem_range] at hmem
    obtain ⟨n, hn, heq⟩ := hmem
    have hL := congrArg Prod.fst heq
    have hv := congrArg Prod.snd heq
    simp only at hL hv
    refine ⟨⟨_, hL.symm⟩, ?_⟩
    rw [← hv, bucketVals]
    congr 1
    rw [← hL]
    congr 1
    apply List.filter_congr
    intro p _
    rw [decide_eq_decide]
    exact ceilIdx_eq_iff hS

set_option maxRecDepth 8000 in
/-- Claim C4: for every series and positive fixed period, every row of
`rollup_ending` is labelled `period_start + period` for some bucket and
holds the arithmetic mean (nulls excluded) of the processed samples in the
left-open/right-closed bucket `(label - period, label]`; and on the series
`[(00:01, 1), (00:33, 2), (01:05, 10)]` with a 1-hour period and
upsampling, the result is `{01:00 ↦ 3.3, 02:00 ↦ 9.5}`. -/
theorem rollup_ending_buckets :
    (∀ (d : TimeSeries) (S : ℚ) (u : Bool), 0 < S →
      ∀ L v, (L, v) ∈ rollup_ending d S u →
      (∃ k : ℤ, L = (k : ℚ) * S) ∧
      v = meanOpt (((if u then upsample d else d).filter
          (fun p => decide (p.1 ≤ L ∧ L < p.1 + S))).filterMap (fun p => p.2))) ∧
    rollup_ending exRollup 3600 true =
      [((3600 : ℚ), some ((33 : ℚ) / 10)), ((7200 : ℚ), some ((19 : ℚ) / 2))] := by
  constructor
  · intro d S u hS L v hmem
    exact resampleRightMean_mem hS hmem
  · with_unfolding_all rfl

set_option maxRecDepth 8000 in
/-- Witness for C4: the first output row of the concrete example is
labelled `01:00` (a multiple of the hour) and holds the mean of the
upsampled samples in `(00:00, 01:00]`. -/
theorem rollup_ending_buckets_witness :
    (∃ k : ℤ, (3600 : ℚ) = (k : ℚ) * 3600) ∧
    some ((33 : ℚ) / 10) = meanOpt (((if true then upsample exRollup else exRollup).filter
        (fun p => decide (p.1 ≤ (3600 : ℚ) ∧ (3600 : ℚ) < p.1 + 3600))).filterMap
        (fun p => p.2)) :=
  rollup_ending_buckets.1 exRollup 3600 true (by norm_num) 3600 (some ((33 : ℚ) / 10))
    (by
      have he : rollup_ending exRollup 3600 true =
          [((3600 : ℚ), some ((33 : ℚ) / 10)), ((7200 : ℚ), some ((19 : ℚ) / 2))] := by
        with_unfolding_all rfl
      rw [he]
      exact List.mem_cons_self _ _)

/-- `bestLe` finds nothing exactly when no knot lies at or before `i`. -/
theorem bestLe_eq_none {i : ℕ} {l : List (ℕ × ℚ)} :
    bestLe i l = none ↔ ∀ p ∈ l, i < p.1 := by
  induction l with
  | nil => simp [bestLe]
  | cons p rest ih =>
    simp only [bestLe]
    by_cases hp : p.1 ≤ i
    · rw [if_pos hp]
      cases hr : bestLe i rest with
      | none =>
        constructor
        · intro hcon
          have hcon' : (some p : Option (ℕ × ℚ)) = none := hcon
          exact absurd hcon' (by simp)
        · intro hall
          exact absurd (hall p (List.mem_cons_self _ _)) (by omega)
      | some q =>
        constructor
        · intro hcon
          have hcon' : (if q.1 < p.1 then some p else some q) = none := hcon
          split at hcon' <;> exact absurd hcon' (by simp)
        · intro hall
          exact absurd (hall p (List.mem_cons_self _ _)) (by omega)
    · rw [if_neg hp, ih]
      constructor
      · intro hall p' hp'
        rcases List.mem_cons.mp hp' with h' | h'
        · subst h'; omega
        · exact hall p' h'
      · intro hall p' hp'
        exact hall p' (List.mem_cons_of_mem _ hp')

/-- A `bestLe` result is a knot at or before `i` of maximal position. -/
theorem bestLe_spec {i : ℕ} {l : List (ℕ × ℚ)} {q : ℕ × ℚ} (h : bestLe i l = some q) :
    q ∈ l ∧ q.1 ≤ i ∧ ∀ p ∈ l, p.1 ≤ i → p.1 ≤ q.1 := by
  induction l generalizing q with
  | nil => simp [bestLe] at h
  | cons p rest ih =>
    simp only [bestLe] at h
    by_cases hp : p.1 ≤ i
    · rw [if_pos hp] at h
      cases hr : bestLe i rest with
      | none =>
        rw [hr] at h
        have h' : some p = some q := h
        have hq : q = p := (Option.some.inj h').symm
        subst hq
        refine ⟨List.mem_cons_self _ _, hp, ?_⟩
        intro p' hp' hle'
        rcases List.mem_cons.mp hp' with h'' | h''
        · subst h''; exact le_refl _
        · exact absurd (bestLe_eq_none.mp hr p' h'') (by omega)
      | some q' =>
        rw [hr] at h
        have h' : (if q'.1 < p.1 then some p else some q') = some q := h
        obtain ⟨hmem', hle', hmax'⟩ := ih hr
        by_cases hlt : q'.1 < p.1
        · rw [if_pos hlt] at h'
          have hq : q = p := (Option.some.inj h').symm
          subst hq
          refine ⟨List.mem_cons_self _ _, hp, ?_⟩
          intro p' hp'' hle''
          rcases List.mem_cons.mp hp'' with h'' | h''
          · subst h''; exact le_refl _
          · exact le_trans (hmax' p' h'' hle'') (le_of_lt hlt)
        · rw [if_neg hlt] at h'
          have hq : q = q' := (Option.some.inj h').symm
          subst hq
          refine ⟨List.mem_cons_of_mem _ hmem', hle', ?_⟩
          intro p' hp'' hle''
          rcases List.mem_cons.mp hp'' with h'' | h''
          · subst h''; omega
          · exact hmax' p' h'' hle''
    · rw [if_neg hp] at h
      obtain ⟨hmem', hle', hmax'⟩ := ih h
      refine ⟨List.mem_cons_of_mem _ hmem', hle', ?_⟩
      intro p' hp'' hle''
      rcases List.mem_cons.mp hp'' with h'' | h''
      · subst h''; omega
      · exact hmax' p' h'' hle''

/-- `bestGe` finds nothing exactly when no knot lies at or after `i`. -/
theorem bestGe_eq_none {i : ℕ} {l : List (ℕ × ℚ)} :
    bestGe i l = none ↔ ∀ p ∈ l, p.1 < i := by
  induction l with
  | nil => simp [bestGe]
  | cons p rest ih =>
    simp only [bestGe]
    by_cases hp : i ≤ p.1
    · rw [if_pos hp]
      cases hr : bestGe i rest with
      | none =>
        constructor
        · intro hcon
          have hcon' : (some p : Option (ℕ × ℚ)) = none := hcon
          exact absurd hcon' (by simp)
        · intro hall
          exact absurd (hall p (List.mem_cons_self _ _)) (by omega)
      | some q =>
        constructor
        · intro hcon
          have hcon' : (if p.1 < q.1 then some p else some q) = none := hcon
          split at hcon' <;> exact absurd hcon' (by simp)
        · intro hall
          exact absurd (hall p (List.mem_cons_self _ _)) (by omega)
    · rw [if_neg hp, ih]
      constructor
      · intro hall p' hp'
        rcases List.mem_cons.mp hp' with h' | h'
        · subst h'; omega
        · exact hall p' h'
      · intro hall p' hp'
        exact hall p' (List.mem_cons_of_mem _ hp')

/-- A `bestGe` result is a knot at or after `i` of minimal position. -/
theorem bestGe_spec {i : ℕ} {l : List (ℕ × ℚ)} {q : ℕ × ℚ} (h : bestGe i l = some q) :
    q ∈ l ∧ i ≤ q.1 ∧ ∀ p ∈ l, i ≤ p.1 → q.1 ≤ p.1 := by
  induction l generalizing q with
  | nil => simp [bestGe] at h
  | cons p rest ih =>
    simp only [bestGe] at h
    by_cases hp : i ≤ p.1
    · rw [if_pos hp] at h
      cases hr : bestGe i rest with
      | none =>
        rw [hr] at h
        have h' : some p = some q := h
        have hq : q = p := (Option.some.inj h').symm
        subst hq
        refine ⟨List.mem_cons_self _ _, hp, ?_⟩
        intro p' hp' hle'
        rcases List.mem_cons.mp hp' with h'' | h''
        · subst h''; exact le_refl _
        · exact absurd (bestGe_eq_none.mp hr p' h'') (by omega)
      | some q' =>
        rw [hr] at h
        have h' : (if p.1 < q'.1 then some p else some q') = some q := h
        obtain ⟨hmem', hle', hmin'⟩ := ih hr
        by_cases hlt : p.1 < q'.1
        · rw [if_pos hlt] at h'
          have hq : q = p := (Option.some.inj h').symm
          subst hq
          refine ⟨List.mem_cons_self _ _, hp, ?_⟩
          intro p' hp'' hle''
          rcases List.mem_cons.mp hp'' with h'' | h''
          · subst h''; exact le_refl _
          · exact le_trans (le_of_lt hlt) (hmin' p' h'' hle'')
        · rw [if_neg hlt] at h'
          have hq : q = q' := (Option.some.inj h').symm
          subst hq
          refine ⟨List.mem_cons_of_mem _ hmem', hle', ?_⟩
          intro p' hp'' hle''
          rcases List.mem_cons.mp hp'' with h'' | h''
          · subst h''; omega
          · exact hmin' p' h'' hle''
    · rw [if_neg hp] at h
      obtain ⟨hmem', hle', hmin'⟩ := ih h
      refine ⟨List.mem_cons_of_mem _ hmem', hle', ?_⟩
      intro p' hp'' hle''
      rcases List.mem_cons.mp hp'' with h'' | h''
      · subst h''; omega
      · exact hmin' p' h'' hle''

/-- The valid knots of a series are exactly its positions holding present
values. -/
theorem mem_validIdx {l : TimeSeries} {j : ℕ} {w : ℚ} :
    (j, w) ∈ validIdx l ↔ ∃ m, l[j]? = some (m, some w) := by
  unfold validIdx
  rw [List.mem_filterMap]
  constructor
  · rintro ⟨⟨i, m, ov⟩, hmem, hf⟩
    cases ov with
    | none => simp at hf
    | some v =>
      simp only [Option.map_some'] at hf
      have h1 := congrArg Prod.fst (Option.some.inj hf)
      have h2 := congrArg Prod.snd (Option.some.inj hf)
      simp only at h1 h2
      subst h1
      subst h2
      exact ⟨m, List.mk_mem_enum_iff_getElem?.mp hmem⟩
  · rintro ⟨m, hm⟩
    exact ⟨(j, (m, some w)), List.mk_mem_enum_iff_getElem?.mpr hm, by simp⟩

/-- Row `i` of the interpolated series: the timestamp is kept, a present
value is kept, and a NaN is replaced according to the fill mask and the
linear interpolant. -/
theorem interpolateSeries_getElem (l : TimeSeries) (i : ℕ) :
    (interpolateSeries l)[i]? = (l[i]?).map (fun p =>
      (p.1, match p.2 with
        | some v => some v
        | none => if fillAllowed i (validIdx l) then interpVal i (validIdx l) else none)) := by
  unfold interpolateSeries
  rw [List.getElem?_map, List.getElem?_enum]
  cases hl : l[i]? with
  | none => rfl
  | some a => rfl

/-- Claim C3 (amended): `upsample` resamples to 1-minute resolution by
averaging the values in each minute bucket (present resampled values are
kept unchanged), and linearly interpolates the missing minutes; a missing
minute is filled — with the linear interpolant between the nearest valid
minutes — iff it lies within 60 positions of a valid minute in at least one
direction, so a missing minute stays null iff every observed minute is more
than 60 minutes away on both sides. -/
theorem upsample_fill_rule (d : TimeSeries) (i : ℕ) (t : ℚ) (ov : Option ℚ)
    (h : (upsample d)[i]? = some (t, ov)) :
    (∀ v : ℚ, (resampleLeftMean d 60)[i]? = some (t, some v) → ov = some v) ∧
    (ov = none ↔ ∀ q ∈ validIdx (resampleLeftMean d 60), 60 < max q.1 i - min q.1 i) ∧
    (∀ jp kp : ℕ × ℚ,
      bestLe i (validIdx (resampleLeftMean d 60)) = some jp →
      bestGe i (validIdx (resampleLeftMean d 60)) = some kp →
      (resampleLeftMean d 60)[i]? = some (t, none) →
      jp.1 ≠ kp.1 → (i - jp.1 ≤ 60 ∨ kp.1 - i ≤ 60) →
      ov = some (jp.2 + (kp.2 - jp.2) * ((i - jp.1 : ℕ) : ℚ) / ((kp.1 - jp.1 : ℕ) : ℚ))) := by
  have h0 : (interpolateSeries (resampleLeftMean d 60))[i]? = some (t, ov) := h
  rw [interpolateSeries_getElem] at h0
  cases hRi : (resampleLeftMean d 60)[i]? with
  | none => rw [hRi] at h0; exact absurd h0 (by simp)
  | some p =>
    obtain ⟨m, w⟩ := p
    rw [hRi] at h0
    simp only [Option.map_some'] at h0
    have ht : m = t := congrArg Prod.fst (Option.some.inj h0)
    have hov := congrArg Prod.snd (Option.some.inj h0)
    subst ht
    cases w with
    | some v =>
      have hov' : some v = ov := hov
      refine ⟨?_, ?_, ?_⟩
      · intro v' hv'
        have hvv : some v = some v' := congrArg Prod.snd (Option.some.inj hv')
        rw [← hov']
        exact hvv
      · constructor
        · intro hnone
          rw [← hov'] at hnone
          exact absurd hnone (by simp)
        · intro hall
          have hmem : (i, v) ∈ validIdx (resampleLeftMean d 60) := mem_validIdx.mpr ⟨m, hRi⟩
          exact absurd (hall (i, v) hmem) (by omega)
      · intro jp kp _ _ hRnone _ _
        have hc : (some v : Option ℚ) = none := congrArg Prod.snd (Option.some.inj hRnone)
        exact absurd hc (by simp)
    | none =>
      have hov' : (if fillAllowed i (validIdx (resampleLeftMean d 60))
          then interpVal i (validIdx (resampleLeftMean d 60)) else none) = ov := hov
      refine ⟨?_, ?_, ?_⟩
      · intro v' hv'
        have hc : (none : Option ℚ) = some v' := congrArg Prod.snd (Option.some.inj hv')
        exact absurd hc (by simp)
      · constructor
        · intro hnone q hq
          by_contra hcon
          push_neg at hcon
          have hfill : fillAllowed i (validIdx (resampleLeftMean d 60)) = true := by
            unfold fillAllowed
            rcases le_or_lt q.1 i with hle | hlt
            · cases hbl : bestLe i (validIdx (resampleLeftMean d 60)) with
              | none => exact absurd (bestLe_eq_none.mp hbl q hq) (by omega)
              | some jp =>
                obtain ⟨_, hjle, hjmax⟩ := bestLe_spec hbl
                have hqj : q.1 ≤ jp.1 := hjmax q hq hle
                have hj60 : i - jp.1 ≤ 60 := by omega
                simp [hj60]
            · have hge : i ≤ q.1 := le_of_lt hlt
              cases hbg : bestGe i (validIdx (resampleLeftMean d 60)) with
              | none => exact absurd (bestGe_eq_none.mp hbg q hq) (by omega)
              | some kp =>
                obtain ⟨_, hkge, hkmin⟩ := bestGe_spec hbg
                have hqk : kp.1 ≤ q.1 := hkmin q hq hge
                have hk60 : kp.1 - i ≤ 60 := by omega
                simp [hk60]
          have hsome : ∃ val, interpVal i (validIdx (resampleLeftMean d 60)) = some val := by
            unfold interpVal
            unfold fillAllowed at hfill
            cases hbl : bestLe i (validIdx (resampleLeftMean d 60)) with
            | none =>
              cases hbg : bestGe i (validIdx (resampleLeftMean d 60)) with
              | none => rw [hbl, hbg] at hfill; simp at hfill
              | some kp => exact ⟨kp.2, rfl⟩
            | some jp =>
              cases hbg : bestGe i (validIdx (resampleLeftMean d 60)) with
              | none => exact ⟨jp.2, rfl⟩
              | some kp =>
                by_cases hje : kp.1 = jp.1
                · exact ⟨jp.2, by simp [hje]⟩
                · exact ⟨jp.2 + (kp.2 - jp.2) * ((i - jp.1 : ℕ) : ℚ) / ((kp.1 - jp.1 : ℕ) : ℚ),
                    by simp [hje]⟩
          obtain ⟨val, hval⟩ := hsome
          rw [hnone] at hov'
          rw [hfill] at hov'
          simp only [if_true] at hov'
          rw [hval] at hov'
          exact absurd hov' (by simp)
        · intro hall
          have hfill : fillAllowed i (validIdx (resampleLeftMean d 60)) = false := by
            unfold fillAllowed
            cases hbl : bestLe i (validIdx (resampleLeftMean d 60)) with
            | none =>
              cases hbg : bestGe i (validIdx (resampleLeftMean d 60)) with
              | none => simp
              | some kp =>
                obtain ⟨hkmem, hkge, _⟩ := bestGe_spec hbg
                have hk := hall kp hkmem
                have hk60 : ¬ (kp.1 - i ≤ 60) := by omega
                simp [hk60]
            | some jp =>
              obtain ⟨hjmem, hjle, _⟩ := bestLe_spec hbl
              have hj := hall jp hjmem
              cases hbg : bestGe i (validIdx (resampleLeftMean d 60)) with
              | none =>
                have hj60 : ¬ (i - jp.1 ≤ 60) := by omega
                simp [hj60]
              | some kp =>
                obtain ⟨hkmem, hkge, _⟩ := bestGe_spec hbg
                have hk := hall kp hkmem
                have hj60 : ¬ (i - jp.1 ≤ 60) := by omega
                have hk60 : ¬ (kp.1 - i ≤ 60) := by omega
                simp [hj60, hk60]
          rw [← hov', hfill]
          simp
      · intro jp kp hbl hbg hRnone hne hor
        have hfill : fillAllowed i (validIdx (resampleLeftMean d 60)) = true := by
          unfold fillAllowed
          rw [hbl, hbg]
          rcases hor with h' | h' <;> simp [h']
        have hint : interpVal i (validIdx (resampleLeftMean d 60)) =
            some (jp.2 + (kp.2 - jp.2) * ((i - jp.1 : ℕ) : ℚ) / ((kp.1 - jp.1 : ℕ) : ℚ)) := by
          unfold interpVal
          rw [hbl, hbg]
          show (if kp.1 = jp.1 then some jp.2
              else some (jp.2 + (kp.2 - jp.2) * ((i - jp.1 : ℕ) : ℚ) / ((kp.1 - jp.1 : ℕ) : ℚ))) =
            some (jp.2 + (kp.2 - jp.2) * ((i - jp.1 : ℕ) : ℚ) / ((kp.1 - jp.1 : ℕ) : ℚ))
          rw [if_neg (Ne.symm hne)]
        rw [← hov', hfill]
        simpa using hint

set_option maxRecDepth 8000 in
/-- Witness for C3 (amended): in a series observed at minutes 0 and 63,
the missing minute 61 (62 minutes from the left knot is more than 60, but 2
minutes from the right knot) is filled with the linear interpolant. -/
theorem upsample_fill_rule_witness :
    some (61 : ℚ) = some ((0 : ℚ) + ((63 : ℚ) - 0) * ((61 - 0 : ℕ) : ℚ) / ((63 - 0 : ℕ) : ℚ)) :=
  (upsample_fill_rule exGap 61 3660 (some 61) (by with_unfolding_all rfl)).2.2
    (0, 0) (63, 63) (by with_unfolding_all rfl) (by with_unfolding_all rfl)
    (by with_unfolding_all rfl) (by decide) (Or.inr (by decide))

set_option maxRecDepth 8000 in
/-- Counterexample to C3 as stated: the series observed at minute 0 and
minute 63 resamples to 64 minute rows of which only the first (minute 0,
value 0) and the last (minute 63, value 63) are non-null — a run of 62
consecutive missing minutes, longer than 60 — yet `upsample` fills minute
61 with the interpolated value 61 instead of leaving the gap null. -/
theorem upsample_gap_counterexample :
    (resampleLeftMean exGap 60).length = 64 ∧
    ((resampleLeftMean exGap 60).filter (fun p => p.2 ≠ none)).length = 2 ∧
    (resampleLeftMean exGap 60)[0]? = some ((0 : ℚ), some 0) ∧
    (resampleLeftMean exGap 60)[63]? = some ((3780 : ℚ), some 63) ∧
    (resampleLeftMean exGap 60)[61]? = some ((3660 : ℚ), none) ∧
    (upsample exGap)[61]? = some ((3660 : ℚ), some 61) := by
  refine ⟨?_, ?_, ?_, ?_, ?_, ?_⟩ <;> with_unfolding_all rfl
